import Mathlib

/-!
Shallow embedding of the property-broker logic of
`automotive/vehicle/2.0/default/impl/vhal_v2_0/DefaultVehicleHal.cpp`
(the validation engine, the read/write paths, the timer/heartbeat
dispatch and initialization), together with theorems checking the
natural-language specification against it.

Machine integers (`int32_t`, `int64_t`, `size_t`) are modelled as `Int`
and `Nat` with explicit reductions modulo `2 ^ 64` where C++ unsigned
arithmetic wraps; `float` fields are modelled as `Rat`, which is faithful
for the pure order comparisons the source performs on them. Fallible or
undefined-behaviour paths (out-of-bounds vector indexing, dereference of
an uninitialized pointer) return `Option` results, `none` marking the
undefined case.
-/

namespace VHal

/-- Result codes of the HAL operations (types.hal `StatusCode`; the enum
itself is interface metadata outside the given source, its members are
the ones the spec lists plus the two extra codes the client may surface). -/
inductive StatusCode where
  | OK
  | TRY_AGAIN
  | INVALID_ARG
  | NOT_AVAILABLE
  | ACCESS_DENIED
  | INTERNAL_ERROR
  deriving DecidableEq, Repr

/-- types.hal `VehiclePropertyStatus`: availability of a stored value. -/
inductive VehiclePropertyStatus where
  | AVAILABLE
  | UNAVAILABLE
  | ERROR
  deriving DecidableEq, Repr

/-- types.hal `VehiclePropertyType`: the type tag embedded in a property
id. `UNKNOWN` stands for every bit pattern that is none of the named
tags (all such patterns take the `default` branch of each `switch` in
the source, so one constructor models them faithfully). -/
inductive VehiclePropertyType where
  | BOOLEAN
  | INT32
  | INT32_VEC
  | INT64
  | INT64_VEC
  | FLOAT
  | FLOAT_VEC
  | BYTES
  | STRING
  | MIXED
  | UNKNOWN
  deriving DecidableEq, Repr

/-- types.hal `VehiclePropertyGroup`: the group embedded in a property id. -/
inductive VehiclePropertyGroup where
  | SYSTEM
  | VENDOR
  deriving DecidableEq, Repr

/-- types.hal `VehiclePropertyChangeMode`. -/
inductive VehiclePropertyChangeMode where
  | STATIC
  | ON_CHANGE
  | CONTINUOUS
  deriving DecidableEq, Repr

/-- Modelled from the spec: a property id is an opaque integer carrying an
embedded group and type tag, and a global/area-scoped marker, all
"extractable by pure functions of the id". The extraction functions
(`getPropType`, `getPropGroup`, `isGlobalProp` of `VehicleUtils.h`) and the
bit layout they decode live outside the given source, so the id is modelled
together with its extracted attributes; `uid` keeps distinct ids distinct. -/
structure PropId where
  uid : Int
  typeTag : VehiclePropertyType
  group : VehiclePropertyGroup
  globalProp : Bool
  deriving DecidableEq, Repr

/-- Modelled from the spec: pure extraction of the type tag from a property id. -/
def getPropType (p : PropId) : VehiclePropertyType := p.typeTag

/-- Modelled from the spec: pure extraction of the group from a property id. -/
def getPropGroup (p : PropId) : VehiclePropertyGroup := p.group

/-- Modelled from the spec: whether the property is global (single instance,
area 0) rather than area-scoped. -/
def isGlobalProp (p : PropId) : Bool := p.globalProp

/-- types.hal `VehiclePropValue` with its nested `RawValue` payload
flattened into the record: int32/int64/float sequences, byte sequence and
string, plus property id, area id, timestamp and status. -/
structure VehiclePropValue where
  prop : PropId
  areaId : Int
  timestamp : Int
  status : VehiclePropertyStatus
  int32Values : List Int
  int64Values : List Int
  floatValues : List Rat
  bytes : List Nat
  stringValue : String
  deriving DecidableEq, Repr

/-- types.hal `VehicleAreaConfig`: per-area bounds. -/
structure VehicleAreaConfig where
  areaId : Int
  minInt32Value : Int
  maxInt32Value : Int
  minInt64Value : Int
  maxInt64Value : Int
  minFloatValue : Rat
  maxFloatValue : Rat
  deriving DecidableEq, Repr

/-- types.hal `VehiclePropConfig`: the per-property schema. -/
structure VehiclePropConfig where
  prop : PropId
  changeMode : VehiclePropertyChangeMode
  areaConfigs : List VehicleAreaConfig
  configArray : List Int
  minSampleRate : Rat
  maxSampleRate : Rat
  deriving DecidableEq, Repr

/-- C++ `static_cast<size_t>` applied to a (signed) integer: conversion to
the unsigned 64-bit type reduces the value modulo `2 ^ 64`. -/
def toSizeT (x : Int) : Nat := (x % (2 : Int) ^ 64).toNat

/-- `DefaultVehicleHal::checkVendorMixedPropValue` (source lines 136-184).
`configArray[i]` is `hidl_vec` indexing with no bounds check, so each read
is modelled as `List` optional indexing, `none` standing for the
out-of-bounds access; the three counters are `size_t`, so flag increments
and the added array lengths wrap modulo `2 ^ 64`. The reads and length
comparisons happen in exactly the source's order. -/
def checkVendorMixedPropValue (value : VehiclePropValue) (config : VehiclePropConfig) :
    Option StatusCode :=
  let ca := config.configArray
  match ca[1]?, ca[2]?, ca[3]? with
  | some a1, some a2, some a3 =>
    let int32Count : Nat :=
      ((if a1 = 1 then 1 else 0) + (if a2 = 1 then 1 else 0) + toSizeT a3) % 2 ^ 64
    if value.int32Values.length ≠ int32Count then some .INVALID_ARG
    else
      match ca[4]?, ca[5]? with
      | some a4, some a5 =>
        let int64Count : Nat := ((if a4 = 1 then 1 else 0) + toSizeT a5) % 2 ^ 64
        if value.int64Values.length ≠ int64Count then some .INVALID_ARG
        else
          match ca[6]?, ca[7]? with
          | some a6, some a7 =>
            let floatCount : Nat := ((if a6 = 1 then 1 else 0) + toSizeT a7) % 2 ^ 64
            if value.floatValues.length ≠ floatCount then some .INVALID_ARG
            else
              match ca[8]? with
              | some a8 =>
                if a8 ≠ 0 ∧ value.bytes.length ≠ toSizeT a8 then some .INVALID_ARG
                else some .OK
              | none => none
          | _, _ => none
      | _, _ => none
  | _, _, _ => none

/-- `DefaultVehicleHal::checkPropValue` (source lines 81-134): arity check
driven by the type tag of `value.prop`; `UNKNOWN` is the `default` branch. -/
def checkPropValue (value : VehiclePropValue) (config : VehiclePropConfig) :
    Option StatusCode :=
  match getPropType value.prop with
  | .BOOLEAN | .INT32 =>
    if value.int32Values.length ≠ 1 then some .INVALID_ARG else some .OK
  | .INT32_VEC =>
    if value.int32Values.length < 1 then some .INVALID_ARG else some .OK
  | .INT64 =>
    if value.int64Values.length ≠ 1 then some .INVALID_ARG else some .OK
  | .INT64_VEC =>
    if value.int64Values.length < 1 then some .INVALID_ARG else some .OK
  | .FLOAT =>
    if value.floatValues.length ≠ 1 then some .INVALID_ARG else some .OK
  | .FLOAT_VEC =>
    if value.floatValues.length < 1 then some .INVALID_ARG else some .OK
  | .BYTES => some .OK
  | .STRING => some .OK
  | .MIXED =>
    if getPropGroup value.prop = .VENDOR then checkVendorMixedPropValue value config
    else some .OK
  | .UNKNOWN => some .INVALID_ARG

/-- The `switch (type)` of `DefaultVehicleHal::checkValueRange` (source
lines 205-244), abstracted over the resolved area-config pointer:
`areaConfig? = none` models the pointer left uninitialized, so any branch
that dereferences it yields `none` (undefined behaviour); likewise
`int32Values[0]` on an empty vector. -/
def rangeCheckSwitch (value : VehiclePropValue) (areaConfig? : Option VehicleAreaConfig) :
    Option StatusCode :=
  match getPropType value.prop with
  | .INT32 =>
    match areaConfig? with
    | none => none
    | some ac =>
      if ac.minInt32Value = 0 ∧ ac.maxInt32Value = 0 then some .OK
      else
        match value.int32Values[0]? with
        | none => none
        | some x =>
          if x < ac.minInt32Value ∨ ac.maxInt32Value < x then some .INVALID_ARG
          else some .OK
  | .INT64 =>
    match areaConfig? with
    | none => none
    | some ac =>
      if ac.minInt64Value = 0 ∧ ac.maxInt64Value = 0 then some .OK
      else
        match value.int64Values[0]? with
        | none => none
        | some x =>
          if x < ac.minInt64Value ∨ ac.maxInt64Value < x then some .INVALID_ARG
          else some .OK
  | .FLOAT =>
    match areaConfig? with
    | none => none
    | some ac =>
      if ac.minFloatValue = 0 ∧ ac.maxFloatValue = 0 then some .OK
      else
        match value.floatValues[0]? with
        | none => none
        | some x =>
          if x < ac.minFloatValue ∨ ac.maxFloatValue < x then some .INVALID_ARG
          else some .OK
  | _ => some .OK

/-- `DefaultVehicleHal::checkValueRange` (source lines 186-246): resolve the
area config (global: first declared config, or early `OK` when none are
declared; area-scoped: first config whose `areaId` shares a bit with
`value.areaId`, possibly none), then run the range switch on it. -/
def checkValueRange (value : VehiclePropValue) (config : VehiclePropConfig) :
    Option StatusCode :=
  if isGlobalProp value.prop then
    if config.areaConfigs.length = 0 then some .OK
    else rangeCheckSwitch value config.areaConfigs.head?
  else
    rangeCheckSwitch value
      (config.areaConfigs.find? fun c => Int.land c.areaId value.areaId != 0)

/-- Modelled from the spec: the Property Store collaborator "holds current
value + schema per (property, area)" with atomic per-key reads and writes;
it is modelled as a map from (property id, area id) keys to stored values. -/
abbrev Store := PropId × Int → Option VehiclePropValue

/-- The everywhere-empty store. -/
def emptyStore : Store := fun _ => none

/-- Modelled from the spec: the store's
`readValueOrNull(propertyOrValueKey) -> Option<PropertyValue>`. -/
def readValueOrNull (store : Store) (p : PropId) (area : Int) :
    Option VehiclePropValue := store (p, area)

/-- Modelled from the spec: the store's `writeValue(value, updateStatus) ->
bool`, true iff the write represents an observable change. Per the spec's
status rules ("callers never set status", with `updateStatus` granting the
initialization-time exception), the stored status is taken from the new
value when `updateStatus` is true or the key was absent, and preserved from
the existing record otherwise. -/
def writeValue (store : Store) (v : VehiclePropValue) (updateStatus : Bool) :
    Store × Bool :=
  let key := (v.prop, v.areaId)
  match store key with
  | none => (fun k => if k = key then some v else store k, true)
  | some old =>
    let nv := if updateStatus then v else { v with status := old.status }
    (fun k => if k = key then some nv else store k, decide (nv ≠ old))

/-- `DefaultVehicleHal::get` (source lines 49-71): look the request's
(property, area) key up in the store; absent yields `INVALID_ARG` with no
value; a present value is copied, classified `OK` when its stored status is
`AVAILABLE` and `TRY_AGAIN` otherwise, and re-stamped with the current time
(`elapsedRealtimeNano`, passed in as `now`). -/
def get (store : Store) (requestedPropValue : VehiclePropValue) (now : Int) :
    Option VehiclePropValue × StatusCode :=
  match readValueOrNull store requestedPropValue.prop requestedPropValue.areaId with
  | none => (none, .INVALID_ARG)
  | some internalPropValue =>
    let st : StatusCode :=
      if internalPropValue.status = .AVAILABLE then .OK else .TRY_AGAIN
    (some { internalPropValue with timestamp := now }, st)

/-- `DefaultVehicleHal::set` (source lines 248-281). Inputs beyond the
candidate value: the store's config lookup (`getConfigOrNull`), the store
itself, and the Hardware Client's `setProperty` result as a function of the
forwarded value. The result is `none` when a validation step hits undefined
behaviour, and otherwise the returned status code paired with whether
`setProperty` was invoked; the store is returned unchanged by every path
(the source performs only reads on it). -/
def set (configOf : PropId → Option VehiclePropConfig)
    (clientSet : VehiclePropValue → StatusCode)
    (store : Store) (propValue : VehiclePropValue) :
    Option (StatusCode × Bool) × Store :=
  if propValue.status ≠ .AVAILABLE then (some (.INVALID_ARG, false), store)
  else
    match configOf propValue.prop with
    | none => (some (.INVALID_ARG, false), store)
    | some config =>
      match checkPropValue propValue config with
      | none => (none, store)
      | some st =>
        if st ≠ .OK then (some (st, false), store)
        else
          match checkValueRange propValue config with
          | none => (none, store)
          | some st2 =>
            if st2 ≠ .OK then (some (st2, false), store)
            else
              match readValueOrNull store propValue.prop propValue.areaId with
              | some currentPropValue =>
                if currentPropValue.status ≠ .AVAILABLE then
                  (some (.NOT_AVAILABLE, false), store)
                else (some (clientSet propValue, true), store)
              | none => (some (clientSet propValue, true), store)

/-- The placeholder record `onCreate` builds for one (property, area) pair:
designated initializers set `areaId`, `prop` and `status`; every other
field is value-initialized (zero / empty). -/
def initialPlaceholder (p : PropId) (curArea : Int) : VehiclePropValue :=
  { prop := p
    areaId := curArea
    timestamp := 0
    status := .UNAVAILABLE
    int32Values := []
    int64Values := []
    floatValues := []
    bytes := []
    stringValue := "" }

/-- `DefaultVehicleHal::onCreate` (source lines 284-306), restricted to its
effect on the Property Store (the trailing `triggerSendAllValues` and
heartbeat registration are external side effects). For each discovered
config it computes `numAreas = isGlobalProp ? 0 : areaConfigs.size()` and
writes, for each loop index below `numAreas`, a placeholder with status
`UNAVAILABLE` at `curArea = isGlobalProp ? 0 : areaConfigs[i].areaId`,
with `updateStatus = true`. The in-range index is read with `[i]?`; its
`none` branch is unreachable since `i < numAreas ≤ areaConfigs.length`. -/
def onCreate (configs : List VehiclePropConfig) (store : Store) : Store :=
  configs.foldl
    (fun st cfg =>
      let numAreas : Nat := if isGlobalProp cfg.prop then 0 else cfg.areaConfigs.length
      (List.range numAreas).foldl
        (fun st2 i =>
          match cfg.areaConfigs[i]? with
          | none => st2
          | some ac =>
            let curArea : Int := if isGlobalProp cfg.prop then 0 else ac.areaId
            (writeValue st2 (initialPlaceholder cfg.prop curArea) true).1)
        st)
    store

/-- `DefaultVehicleHal::isContinuousProperty` (source lines 402-409). -/
def isContinuousProperty (configOf : PropId → Option VehiclePropConfig)
    (propId : PropId) : Bool :=
  match configOf propId with
  | none => false
  | some config => config.changeMode = .CONTINUOUS

/-- `DefaultVehicleHal::subscribe` (source lines 374-390). The result is
`none` for the (unreachable) null dereference of `getConfigOrNull` after
`isContinuousProperty` succeeded, and otherwise the status code paired with
the scheduler registration performed, recorded as the (key, rate) pair
passed to `registerRecurrentEvent` (`none` when nothing was registered). -/
def subscribe (configOf : PropId → Option VehiclePropConfig)
    (property : PropId) (sampleRate : Rat) :
    Option (StatusCode × Option (PropId × Rat)) :=
  if ¬ isContinuousProperty configOf property then some (.INVALID_ARG, none)
  else
    match configOf property with
    | none => none
    | some config =>
      if sampleRate < config.minSampleRate ∨ config.maxSampleRate < sampleRate then
        some (.INVALID_ARG, none)
      else some (.OK, some (property, sampleRate))

/-- Modelled from the spec: the dedicated heartbeat pseudo-property id
(`VehicleProperty::VHAL_HEARTBEAT` of types.hal, outside the given source):
system group, int64 payload, global. -/
def VHAL_HEARTBEAT : PropId :=
  { uid := 0x11600012, typeTag := .INT64, group := .SYSTEM, globalProp := true }

/-- Modelled from the spec: the designated always-present diagnostic
(canary) property the health probe reads
(`VehicleProperty::PERF_VEHICLE_SPEED` of types.hal, outside the given
source): system group, float payload, global. -/
def PERF_VEHICLE_SPEED : PropId :=
  { uid := 0x11600207, typeTag := .FLOAT, group := .SYSTEM, globalProp := true }

/-- `DefaultVehicleHal::createVhalHeartBeatProp` (source lines 334-340):
an int64 value obtained from the pool carrying `uptimeMillis()` (passed in
as `uptime`), with the heartbeat property id, area 0, status `AVAILABLE`. -/
def createVhalHeartBeatProp (uptime : Int) : VehiclePropValue :=
  { prop := VHAL_HEARTBEAT
    areaId := 0
    timestamp := 0
    status := .AVAILABLE
    int32Values := []
    int64Values := [uptime]
    floatValues := []
    bytes := []
    stringValue := "" }

/-- `DefaultVehicleHal::doInternalHealthCheck` (source lines 317-332): read
the store for `PERF_VEHICLE_SPEED` (at the default area 0); on success build
the heartbeat value, otherwise produce nothing. -/
def doInternalHealthCheck (store : Store) (uptime : Int) : Option VehiclePropValue :=
  match readValueOrNull store PERF_VEHICLE_SPEED 0 with
  | some _ => some (createVhalHeartBeatProp uptime)
  | none => none

/-- `DefaultVehicleHal::onContinuousPropertyTimer` (source lines 342-366):
for each due property, a continuous property reads its stored value (at the
default area 0), the heartbeat id runs the health check, anything else is
logged and skipped; each produced value is stamped with the current time
and emitted. The returned list is the emitted events in order. -/
def onContinuousPropertyTimer (configOf : PropId → Option VehiclePropConfig)
    (store : Store) (uptime now : Int) (properties : List PropId) :
    List VehiclePropValue :=
  properties.filterMap fun property =>
    let v : Option VehiclePropValue :=
      if isContinuousProperty configOf property then
        readValueOrNull store property 0
      else if property = VHAL_HEARTBEAT then
        doInternalHealthCheck store uptime
      else none
    v.map fun ev => { ev with timestamp := now }

/-- `DefaultVehicleHal::onPropertyValue` (source lines 411-417): obtain an
owned copy of the pushed value, write it to the store, and when the store
reports an observable change emit the copy; returns the new store and the
emitted event, if any. -/
def onPropertyValue (store : Store) (value : VehiclePropValue) (updateStatus : Bool) :
    Store × Option VehiclePropValue :=
  let res := writeValue store value updateStatus
  if res.2 then (res.1, some value) else (res.1, none)

/-- The spec's expected int32 payload length for a vendor MIXED property:
"int32 expected = (flag@1?1:0) + (flag@2?1:0) + arrayLen@3", stated over
the integers; a flag slot is set when it holds the value 1 ("1 indicates"
in the configArray encoding). Written from the spec's words, for
comparison with the source-derived `checkVendorMixedPropValue`. -/
def expectedInt32Count (ca : List Int) : Int :=
  (if ca.getD 1 0 = 1 then 1 else 0) + (if ca.getD 2 0 = 1 then 1 else 0) + ca.getD 3 0

/-- The spec's expected int64 payload length for a vendor MIXED property:
"int64 expected = (flag@4?1:0) + arrayLen@5". -/
def expectedInt64Count (ca : List Int) : Int :=
  (if ca.getD 4 0 = 1 then 1 else 0) + ca.getD 5 0

/-- The spec's expected float payload length for a vendor MIXED property:
"float expected = (flag@6?1:0) + arrayLen@7". -/
def expectedFloatCount (ca : List Int) : Int :=
  (if ca.getD 6 0 = 1 then 1 else 0) + ca.getD 7 0

/-- The spec's checkSchema arity table (its §4.1), stated from the spec's
words for every row except vendor MIXED (which delegates and is outside
claim C6): boolean/int32 need int32 length exactly 1, the vector types
length at least 1, bytes/string/non-vendor-mixed always accepted,
unrecognized tags rejected. For comparison with the source-derived
`checkPropValue`. -/
def specArityResult (value : VehiclePropValue) : StatusCode :=
  match getPropType value.prop with
  | .BOOLEAN | .INT32 =>
    if value.int32Values.length = 1 then .OK else .INVALID_ARG
  | .INT32_VEC =>
    if 1 ≤ value.int32Values.length then .OK else .INVALID_ARG
  | .INT64 =>
    if value.int64Values.length = 1 then .OK else .INVALID_ARG
  | .INT64_VEC =>
    if 1 ≤ value.int64Values.length then .OK else .INVALID_ARG
  | .FLOAT =>
    if value.floatValues.length = 1 then .OK else .INVALID_ARG
  | .FLOAT_VEC =>
    if 1 ≤ value.floatValues.length then .OK else .INVALID_ARG
  | .BYTES => .OK
  | .STRING => .OK
  | .MIXED => .OK
  | .UNKNOWN => .INVALID_ARG

/-- A property value with empty payloads, for building concrete inputs. -/
def mkValue (p : PropId) (area : Int) (st : VehiclePropertyStatus) : VehiclePropValue :=
  { prop := p
    areaId := area
    timestamp := 0
    status := st
    int32Values := []
    int64Values := []
    floatValues := []
    bytes := []
    stringValue := "" }

/-- A schema with no area configs, empty configArray and zero rates, for
building concrete inputs. -/
def mkConfig (p : PropId) (mode : VehiclePropertyChangeMode) : VehiclePropConfig :=
  { prop := p
    changeMode := mode
    areaConfigs := []
    configArray := []
    minSampleRate := 0
    maxSampleRate := 0 }

/-- An area config with all bounds zero (the "no bound enforced" encoding). -/
def mkAreaConfig (area : Int) : VehicleAreaConfig :=
  { areaId := area
    minInt32Value := 0
    maxInt32Value := 0
    minInt64Value := 0
    maxInt64Value := 0
    minFloatValue := 0
    maxFloatValue := 0 }

/-- A concrete global property schema (float, system group). -/
def sampleGlobalCfg : VehiclePropConfig :=
  mkConfig { uid := 100, typeTag := .FLOAT, group := .SYSTEM, globalProp := true } .ON_CHANGE

/-- A concrete area-scoped property schema declaring the single area 5. -/
def sampleAreaCfg : VehiclePropConfig :=
  { mkConfig { uid := 101, typeTag := .INT32, group := .SYSTEM, globalProp := false }
      .ON_CHANGE with
    areaConfigs := [mkAreaConfig 5] }

/-- An area-scoped int32 property id used by the unresolved-area inputs. -/
def areaScopedInt32Prop : PropId :=
  { uid := 2, typeTag := .INT32, group := .SYSTEM, globalProp := false }

/-- A well-formed candidate value for `areaScopedInt32Prop` whose area id 2
shares no bit with the schema's sole declared area 1. -/
def unresolvedAreaVal : VehiclePropValue :=
  { mkValue areaScopedInt32Prop 2 .AVAILABLE with int32Values := [50] }

/-- The schema for `areaScopedInt32Prop`: one declared area config for
area 1 with int32 bounds [0, 100]. -/
def unresolvedAreaCfg : VehiclePropConfig :=
  { mkConfig areaScopedInt32Prop .ON_CHANGE with
    areaConfigs := [{ mkAreaConfig 1 with minInt32Value := 0, maxInt32Value := 100 }] }

/-- A global int32 property with a singleton payload, passing the arity
check with no declared area configs. -/
def globalInt32Val : VehiclePropValue :=
  { mkValue { uid := 3, typeTag := .INT32, group := .SYSTEM, globalProp := true }
      0 .AVAILABLE with int32Values := [5] }

/-- The (area-config-free) schema for `globalInt32Val`. -/
def globalInt32Cfg : VehiclePropConfig :=
  mkConfig { uid := 3, typeTag := .INT32, group := .SYSTEM, globalProp := true } .ON_CHANGE

/-- A vendor MIXED property id. -/
def vendorMixedProp : PropId :=
  { uid := 4, typeTag := .MIXED, group := .VENDOR, globalProp := true }

/-- A vendor MIXED schema whose configArray has only 4 of the 9 slots. -/
def shortMixedCfg : VehiclePropConfig :=
  { mkConfig vendorMixedProp .ON_CHANGE with configArray := [0, 0, 0, 0] }

/-- A vendor MIXED value whose int32 payload length 1 mismatches the
expected count 0 of `shortMixedCfg`. -/
def shortMixedVal : VehiclePropValue :=
  { mkValue vendorMixedProp 0 .AVAILABLE with int32Values := [7] }

/-- A full 9-slot vendor MIXED schema: string flag 0, bool flag 1, int flag
0, int array length 2, long flag 1, long array length 1, float flag 0,
float array length 0, byte array length 0 (unchecked). -/
def fullMixedCfg : VehiclePropConfig :=
  { mkConfig vendorMixedProp .ON_CHANGE with configArray := [0, 1, 0, 2, 1, 1, 0, 0, 0] }

/-- A vendor MIXED value matching every expected count of `fullMixedCfg`
(int32 length 3, int64 length 2, float length 0, arbitrary bytes). -/
def fullMixedVal : VehiclePropValue :=
  { mkValue vendorMixedProp 0 .AVAILABLE with
    int32Values := [1, 2, 3]
    int64Values := [4, 5]
    bytes := [9, 9]
    stringValue := "x" }

/-- A probe input for a vendor MIXED schema: each payload length equals the
count the source computes from the slots that exist in `ca` (missing slots
read as the `getD` default, which the control flow never consults), so
every length comparison the source reaches passes and execution proceeds
to the first missing configArray slot. -/
def mixedProbeValue (ca : List Int) : VehiclePropValue :=
  { mkValue vendorMixedProp 0 .AVAILABLE with
    int32Values :=
      List.replicate
        (((if ca.getD 1 0 = 1 then 1 else 0) + (if ca.getD 2 0 = 1 then 1 else 0) +
            toSizeT (ca.getD 3 0)) % 2 ^ 64) 0
    int64Values :=
      List.replicate
        (((if ca.getD 4 0 = 1 then 1 else 0) + toSizeT (ca.getD 5 0)) % 2 ^ 64) 0
    floatValues :=
      List.replicate
        (((if ca.getD 6 0 = 1 then 1 else 0) + toSizeT (ca.getD 7 0)) % 2 ^ 64) 0 }

/-- A store holding exactly one record: an AVAILABLE float 50 sample for
the canary property `PERF_VEHICLE_SPEED` at area 0. -/
def canaryStore : Store := fun k =>
  if k = (PERF_VEHICLE_SPEED, (0 : Int)) then
    some { mkValue PERF_VEHICLE_SPEED 0 .AVAILABLE with floatValues := [50], timestamp := 3 }
  else none

/-- A value whose status is `UNAVAILABLE`, as a caller is never allowed to
submit to `set`. -/
def unavailableStatusVal : VehiclePropValue :=
  { mkValue { uid := 6, typeTag := .INT32, group := .SYSTEM, globalProp := true }
      0 .UNAVAILABLE with int32Values := [1] }

/-- A bytes-typed value with an empty payload. -/
def emptyBytesVal : VehiclePropValue :=
  mkValue { uid := 7, typeTag := .BYTES, group := .SYSTEM, globalProp := true } 0 .AVAILABLE

/-- C1: the spec requires initialization to write an UNAVAILABLE
placeholder for exactly one (propertyId, area 0) pair per global property
and one pair per declared area otherwise; the source computes
`numAreas = isGlobalProp ? 0 : areaConfigs.size()`, so its loop writes
nothing at all for a global property (its inner
`curArea = isGlobalProp ? 0 : ...` branch is dead code). Evaluated here: a
global schema leaves the store empty at (prop, 0), while an area-scoped
schema does get its per-area placeholder. -/
theorem onCreate_global_placeholder_missing :
    readValueOrNull (onCreate [sampleGlobalCfg] emptyStore) sampleGlobalCfg.prop 0 = none ∧
    readValueOrNull (onCreate [sampleAreaCfg] emptyStore) sampleAreaCfg.prop 5 =
      some (initialPlaceholder sampleAreaCfg.prop 5) :=
  ⟨by decide, by decide⟩

/-- C4: `get` looks up the stored value for (propertyId, areaId); if absent
it returns INVALID_ARG and no value; if present with stored status
AVAILABLE it returns OK, otherwise TRY_AGAIN; and every returned value is
the stored one re-stamped with the current timestamp, overriding the
stored timestamp. -/
theorem get_lookup_classification (store : Store) (req : VehiclePropValue) (now : Int) :
    (readValueOrNull store req.prop req.areaId = none →
      get store req now = (none, .INVALID_ARG)) ∧
    (∀ iv, readValueOrNull store req.prop req.areaId = some iv →
      get store req now =
        (some { iv with timestamp := now },
          if iv.status = .AVAILABLE then .OK else .TRY_AGAIN)) := by
  refine ⟨fun h => ?_, fun iv h => ?_⟩ <;> simp [get, h]

/-- C4 witness: on a store holding an AVAILABLE canary sample with
timestamp 3, `get` at time 7 returns OK and the sample re-stamped to 7. -/
theorem get_lookup_classification_witness :
    get canaryStore (mkValue PERF_VEHICLE_SPEED 0 .AVAILABLE) 7 =
      (some { mkValue PERF_VEHICLE_SPEED 0 .AVAILABLE with
                floatValues := [50], timestamp := 7 },
        .OK) := by
  have h := (get_lookup_classification canaryStore
      (mkValue PERF_VEHICLE_SPEED 0 .AVAILABLE) 7).2
    { mkValue PERF_VEHICLE_SPEED 0 .AVAILABLE with floatValues := [50], timestamp := 3 }
    (by decide)
  exact h.trans (by decide)

/-- C6: checkSchema (`checkPropValue`) enforces exactly the spec's arity
table for every type tag — boolean/int32 need int32 length 1, vector types
length at least 1, int64/float scalars length 1, bytes and string any
length, non-vendor mixed accepted unconditionally, unrecognized tags
rejected (the vendor MIXED row delegates to the mixed check and is outside
this claim). -/
theorem checkPropValue_matches_arity_table (value : VehiclePropValue)
    (config : VehiclePropConfig)
    (h : ¬(getPropType value.prop = .MIXED ∧ getPropGroup value.prop = .VENDOR)) :
    checkPropValue value config = some (specArityResult value) := by
  unfold checkPropValue specArityResult
  cases htag : getPropType value.prop
  case MIXED =>
    have hg : ¬ getPropGroup value.prop = .VENDOR := fun hv => h ⟨htag, hv⟩
    simp [hg]
  case BOOLEAN => by_cases h1 : value.int32Values.length = 1 <;> simp [h1]
  case INT32 => by_cases h1 : value.int32Values.length = 1 <;> simp [h1]
  case INT32_VEC =>
    by_cases h1 : value.int32Values.length < 1
    · simp [h1, Nat.lt_one_iff.mp h1]
    · simp [h1, Nat.not_lt.mp h1]
  case INT64 => by_cases h1 : value.int64Values.length = 1 <;> simp [h1]
  case INT64_VEC =>
    by_cases h1 : value.int64Values.length < 1
    · simp [h1, Nat.lt_one_iff.mp h1]
    · simp [h1, Nat.not_lt.mp h1]
  case FLOAT => by_cases h1 : value.floatValues.length = 1 <;> simp [h1]
  case FLOAT_VEC =>
    by_cases h1 : value.floatValues.length < 1
    · simp [h1, Nat.lt_one_iff.mp h1]
    · simp [h1, Nat.not_lt.mp h1]
  case BYTES => rfl
  case STRING => rfl
  case UNKNOWN => rfl

/-- C6 witness: a bytes-typed value with an empty payload is accepted, and
the source result matches the spec table's row. -/
theorem checkPropValue_matches_arity_table_witness :
    checkPropValue emptyBytesVal globalInt32Cfg = some (specArityResult emptyBytesVal) :=
  checkPropValue_matches_arity_table emptyBytesVal globalInt32Cfg (by decide)

/-- C7: `subscribe` returns InvalidArgument unless the schema exists, marks
the property CONTINUOUS, and the rate lies within
[minSampleRate, maxSampleRate] inclusive; only in the accepting case does
it register the (key, rate) periodic callback with the scheduler. -/
theorem subscribe_continuous_inclusive (configOf : PropId → Option VehiclePropConfig)
    (property : PropId) (rate : Rat) :
    subscribe configOf property rate =
      some (match configOf property with
        | none => (.INVALID_ARG, none)
        | some config =>
          if config.changeMode = .CONTINUOUS ∧
              config.minSampleRate ≤ rate ∧ rate ≤ config.maxSampleRate then
            (.OK, some (property, rate))
          else (.INVALID_ARG, none)) := by
  unfold subscribe isContinuousProperty
  cases hc : configOf property with
  | none => simp
  | some config =>
    by_cases hm : config.changeMode = .CONTINUOUS
    · by_cases h1 : rate < config.minSampleRate
      · simp [hm, h1, not_le.mpr h1]
      · by_cases h2 : config.maxSampleRate < rate
        · simp [hm, h1, h2, not_le.mpr h2]
        · simp [hm, h1, h2, not_lt.mp h1, not_lt.mp h2]
    · simp [hm]

/-- C9: `set` performs only reads on the Property Store — every success and
failure path returns the store unchanged — while the hardware push callback
`onPropertyValue` does write through: after it runs, the store holds a
record at the pushed value's key. -/
theorem set_leaves_store_unchanged (configOf : PropId → Option VehiclePropConfig)
    (clientSet : VehiclePropValue → StatusCode) (store : Store)
    (propValue : VehiclePropValue) :
    (set configOf clientSet store propValue).2 = store ∧
    (∀ updateStatus,
      readValueOrNull (onPropertyValue store propValue updateStatus).1
        propValue.prop propValue.areaId ≠ none) := by
  constructor
  · unfold set
    repeat' split
    all_goals rfl
  · intro updateStatus
    unfold onPropertyValue writeValue readValueOrNull
    cases h : store (propValue.prop, propValue.areaId)
    · simp [h]
    · simp [h]
      repeat' split
      all_goals simp

/-- C3: whenever `set` fails — non-AVAILABLE input status, missing schema,
failing schema check, failing range check (each InvalidArgument or the
propagated code), or a currently stored value with non-AVAILABLE status
(NotAvailable) — it returns that error without invoking the Hardware
Client's setProperty, the checks short-circuiting in exactly this order;
only when every check passes is setProperty invoked and its status
returned. -/
theorem set_failure_paths (configOf : PropId → Option VehiclePropConfig)
    (clientSet : VehiclePropValue → StatusCode) (store : Store) (v : VehiclePropValue) :
    (v.status ≠ .AVAILABLE →
      (set configOf clientSet store v).1 = some (.INVALID_ARG, false)) ∧
    (v.status = .AVAILABLE → configOf v.prop = none →
      (set configOf clientSet store v).1 = some (.INVALID_ARG, false)) ∧
    (∀ config e, v.status = .AVAILABLE → configOf v.prop = some config →
      checkPropValue v config = some e → e ≠ .OK →
      (set configOf clientSet store v).1 = some (e, false)) ∧
    (∀ config e, v.status = .AVAILABLE → configOf v.prop = some config →
      checkPropValue v config = some .OK → checkValueRange v config = some e →
      e ≠ .OK → (set configOf clientSet store v).1 = some (e, false)) ∧
    (∀ config cur, v.status = .AVAILABLE → configOf v.prop = some config →
      checkPropValue v config = some .OK → checkValueRange v config = some .OK →
      readValueOrNull store v.prop v.areaId = some cur → cur.status ≠ .AVAILABLE →
      (set configOf clientSet store v).1 = some (.NOT_AVAILABLE, false)) ∧
    (∀ config, v.status = .AVAILABLE → configOf v.prop = some config →
      checkPropValue v config = some .OK → checkValueRange v config = some .OK →
      (∀ cur, readValueOrNull store v.prop v.areaId = some cur →
        cur.status = .AVAILABLE) →
      (set configOf clientSet store v).1 = some (clientSet v, true)) := by
  refine ⟨fun h => ?_, fun h hc => ?_, fun config e h hc hp he => ?_,
    fun config e h hc hp hr he => ?_, fun config cur h hc hp hr hcur hst => ?_,
    fun config h hc hp hr hcur => ?_⟩
  · simp [set, h]
  · simp [set, h, hc]
  · simp [set, h, hc, hp, he]
  · simp [set, h, hc, hp, hr, he]
  · simp [set, h, hc, hp, hr, hcur, hst]
  · cases hx : readValueOrNull store v.prop v.areaId with
    | none => simp [set, h, hc, hp, hr, hx]
    | some cur => simp [set, h, hc, hp, hr, hx, hcur cur hx]

/-- C3 witness: a value submitted with status UNAVAILABLE is rejected with
InvalidArgument and the client flag stays false. -/
theorem set_failure_paths_witness :
    (set (fun _ => none) (fun _ => .OK) emptyStore unavailableStatusVal).1 =
      some (.INVALID_ARG, false) :=
  (set_failure_paths (fun _ => none) (fun _ => .OK) emptyStore unavailableStatusVal).1
    (by decide)

/-- C8: on a timer tick for the heartbeat id (with no continuous schema
registered for that id), a heartbeat event is emitted iff the store holds a
value for the canary property at area 0; when emitted it carries the
heartbeat property id, area 0, status AVAILABLE, the uptime counter as its
int64 payload and the current timestamp; when the probe fails nothing is
emitted for that tick. -/
theorem heartbeat_tick_iff_canary (configOf : PropId → Option VehiclePropConfig)
    (store : Store) (uptime now : Int)
    (h : isContinuousProperty configOf VHAL_HEARTBEAT = false) :
    onContinuousPropertyTimer configOf store uptime now [VHAL_HEARTBEAT] =
      match readValueOrNull store PERF_VEHICLE_SPEED 0 with
      | some _ =>
        [{ prop := VHAL_HEARTBEAT, areaId := 0, timestamp := now,
           status := .AVAILABLE, int32Values := [], int64Values := [uptime],
           floatValues := [], bytes := [], stringValue := "" }]
      | none => [] := by
  unfold onContinuousPropertyTimer doInternalHealthCheck createVhalHeartBeatProp
  cases hr : readValueOrNull store PERF_VEHICLE_SPEED 0 <;>
    simp [h, hr, List.filterMap]

/-- C8 witness: with a populated canary store, uptime 5 and clock 7, the
heartbeat tick emits exactly the expected event. -/
theorem heartbeat_tick_iff_canary_witness :
    onContinuousPropertyTimer (fun _ => none) canaryStore 5 7 [VHAL_HEARTBEAT] =
      [{ prop := VHAL_HEARTBEAT, areaId := 0, timestamp := 7, status := .AVAILABLE,
         int32Values := [], int64Values := [5], floatValues := [], bytes := [],
         stringValue := "" }] := by
  have h := heartbeat_tick_iff_canary (fun _ => none) canaryStore 5 7 (by decide)
  exact h.trans (by decide)

/-- C2 counterexample: a schema-valid int32 candidate whose areaId 2 shares
no bit with the schema's single declared area 1 drives `checkValueRange`
into the dereference of the unresolved area-config pointer — it produces no
OK/InvalidArgument result (modelled `none`), refuting the claimed
totality. -/
theorem checkValueRange_unresolved_counterexample :
    checkPropValue unresolvedAreaVal unresolvedAreaCfg = some .OK ∧
    checkValueRange unresolvedAreaVal unresolvedAreaCfg = none :=
  ⟨by decide, by decide⟩

/-- Bridge for the two-flag `size_t` counter: under int32 entry bounds and
a physically realizable sequence length (`< 2 ^ 62`, the address-space cap
on a C++ vector), the wrapped count the source computes equals the length
iff the spec's plain-integer formula does. -/
theorem count2_bridge (p q : Prop) [Decidable p] [Decidable q] {a : Int}
    (ha : -(2 : Int) ^ 31 ≤ a ∧ a < 2 ^ 31) {len : Nat}
    (hlen : len < 2 ^ 62) :
    (len = ((if p then 1 else 0) + (if q then 1 else 0) + toSizeT a) % 2 ^ 64) ↔
      ((len : Int) = (if p then 1 else 0) + (if q then 1 else 0) + a) := by
  unfold toSizeT
  by_cases hp : p <;> by_cases hq : q <;> simp [hp, hq] <;> omega

/-- Bridge for the one-flag `size_t` counter, as `count2_bridge`. -/
theorem count1_bridge (p : Prop) [Decidable p] {a : Int}
    (ha : -(2 : Int) ^ 31 ≤ a ∧ a < 2 ^ 31) {len : Nat}
    (hlen : len < 2 ^ 62) :
    (len = ((if p then 1 else 0) + toSizeT a) % 2 ^ 64) ↔
      ((len : Int) = (if p then 1 else 0) + a) := by
  unfold toSizeT
  by_cases hp : p <;> simp [hp] <;> omega

/-- Bridge for the byte-length comparison against `static_cast<size_t>` of
an int32 entry. -/
theorem bytes_bridge {a : Int}
    (ha : -(2 : Int) ^ 31 ≤ a ∧ a < 2 ^ 31) {len : Nat}
    (hlen : len < 2 ^ 62) :
    (len = toSizeT a) ↔ ((len : Int) = a) := by
  unfold toSizeT
  omega

/-- Payload facts `checkPropValue = OK` guarantees for the scalar numeric
tags (the facts the source's `assert` comments appeal to). -/
theorem checkPropValue_ok_payload {v : VehiclePropValue} {c : VehiclePropConfig}
    (hpv : checkPropValue v c = some .OK) :
    (getPropType v.prop = .INT32 → v.int32Values ≠ []) ∧
    (getPropType v.prop = .INT64 → v.int64Values ≠ []) ∧
    (getPropType v.prop = .FLOAT → v.floatValues ≠ []) := by
  unfold checkPropValue at hpv
  refine ⟨fun ht => ?_, fun ht => ?_, fun ht => ?_⟩ <;>
    · rw [ht] at hpv
      intro hnil
      rw [hnil] at hpv
      simp at hpv

/-- With nonempty scalar payloads, the range switch on a resolved area
config always produces a result. -/
theorem rangeCheckSwitch_isSome {v : VehiclePropValue}
    (h32 : getPropType v.prop = .INT32 → v.int32Values ≠ [])
    (h64 : getPropType v.prop = .INT64 → v.int64Values ≠ [])
    (hfl : getPropType v.prop = .FLOAT → v.floatValues ≠ [])
    (ac : VehicleAreaConfig) :
    (rangeCheckSwitch v (some ac)).isSome = true := by
  unfold rangeCheckSwitch
  cases ht : getPropType v.prop <;> simp
  case INT32 =>
    split
    · simp
    · cases hl : v.int32Values with
      | nil => exact absurd hl (h32 ht)
      | cons x xs => simp [hl]; split <;> simp
  case INT64 =>
    split
    · simp
    · cases hl : v.int64Values with
      | nil => exact absurd hl (h64 ht)
      | cons x xs => simp [hl]; split <;> simp
  case FLOAT =>
    split
    · simp
    · cases hl : v.floatValues with
      | nil => exact absurd hl (hfl ht)
      | cons x xs => simp [hl]; split <;> simp

/-- C2 amended: for every candidate that passes the structural check,
checkRange (`checkValueRange`) returns an OK/InvalidArgument result iff the
area config is resolvable — the property is global, or some declared area
config shares a bit with `value.areaId` — or the type tag is not a scalar
numeric one; in the remaining case (area-scoped scalar-numeric value whose
areaId matches no declared config) it reads the unresolved area config and
has no defined result. -/
theorem checkValueRange_defined_iff (v : VehiclePropValue) (c : VehiclePropConfig)
    (hpv : checkPropValue v c = some .OK) :
    (checkValueRange v c).isSome = true ↔
      (isGlobalProp v.prop = true ∨
       (∃ ac ∈ c.areaConfigs, Int.land ac.areaId v.areaId ≠ 0) ∨
       (getPropType v.prop ≠ .INT32 ∧ getPropType v.prop ≠ .INT64 ∧
        getPropType v.prop ≠ .FLOAT)) := by
  obtain ⟨h32, h64, hfl⟩ := checkPropValue_ok_payload hpv
  have hsw := rangeCheckSwitch_isSome h32 h64 hfl
  unfold checkValueRange
  cases hg : isGlobalProp v.prop
  case true =>
    simp only [hg, if_true]
    simp only [eq_self_iff_true, true_or, iff_true]
    cases hcfg : c.areaConfigs with
    | nil => simp
    | cons a t => simp [hsw a]
  case false =>
    simp only [hg, Bool.false_eq_true, if_false]
    cases hf : c.areaConfigs.find? (fun ac => Int.land ac.areaId v.areaId != 0) with
    | some ac =>
      refine iff_of_true (hsw ac) (Or.inr (Or.inl ⟨ac, List.mem_of_find?_eq_some hf, ?_⟩))
      simpa using List.find?_some hf
    | none =>
      have hne : ¬ ∃ ac ∈ c.areaConfigs, Int.land ac.areaId v.areaId ≠ 0 := by
        rintro ⟨ac, hac, hl⟩
        have hp := List.find?_eq_none.mp hf ac hac
        simp at hp
        exact hl hp
      unfold rangeCheckSwitch
      cases ht : getPropType v.prop <;> simp [hne]

/-- C2 witness: a global int32 candidate with no declared area configs has
a defined range-check result. -/
theorem checkValueRange_defined_iff_witness :
    (checkValueRange globalInt32Val globalInt32Cfg).isSome = true :=
  (checkValueRange_defined_iff globalInt32Val globalInt32Cfg (by decide)).mpr
    (Or.inl (by decide))

/-- C5: for a vendor MIXED value and a full 9-slot schema (entries in
int32 range, payload lengths physically realizable), checkMixedSchema
(`checkVendorMixedPropValue`) rejects with InvalidArgument iff the int32
length differs from (configArray[1]?1:0)+(configArray[2]?1:0)+configArray[3],
or the int64 length differs from (configArray[4]?1:0)+configArray[5], or
the float length differs from (configArray[6]?1:0)+configArray[7], or
configArray[8] is nonzero and the byte length differs from it; it accepts
otherwise, and the string field is never consulted (a flag slot counts as
set when it holds 1, the value the configArray encoding designates). -/
theorem checkVendorMixed_reject_iff (v : VehiclePropValue) (c : VehiclePropConfig)
    (h9 : 9 ≤ c.configArray.length)
    (hca : ∀ x ∈ c.configArray, -(2 : Int) ^ 31 ≤ x ∧ x < 2 ^ 31)
    (hl32 : v.int32Values.length < 2 ^ 62)
    (hl64 : v.int64Values.length < 2 ^ 62)
    (hlf : v.floatValues.length < 2 ^ 62)
    (hlb : v.bytes.length < 2 ^ 62) :
    (checkVendorMixedPropValue v c = some .INVALID_ARG ↔
      ((v.int32Values.length : Int) ≠ expectedInt32Count c.configArray ∨
       (v.int64Values.length : Int) ≠ expectedInt64Count c.configArray ∨
       (v.floatValues.length : Int) ≠ expectedFloatCount c.configArray ∨
       (c.configArray.getD 8 0 ≠ 0 ∧
        (v.bytes.length : Int) ≠ c.configArray.getD 8 0))) ∧
    (checkVendorMixedPropValue v c = some .OK ↔
      ¬ ((v.int32Values.length : Int) ≠ expectedInt32Count c.configArray ∨
         (v.int64Values.length : Int) ≠ expectedInt64Count c.configArray ∨
         (v.floatValues.length : Int) ≠ expectedFloatCount c.configArray ∨
         (c.configArray.getD 8 0 ≠ 0 ∧
          (v.bytes.length : Int) ≠ c.configArray.getD 8 0))) ∧
    (∀ s, checkVendorMixedPropValue { v with stringValue := s } c =
      checkVendorMixedPropValue v c) := by
  have b1 : 1 < c.configArray.length := by omega
  have b2 : 2 < c.configArray.length := by omega
  have b3 : 3 < c.configArray.length := by omega
  have b4 : 4 < c.configArray.length := by omega
  have b5 : 5 < c.configArray.length := by omega
  have b6 : 6 < c.configArray.length := by omega
  have b7 : 7 < c.configArray.length := by omega
  have b8 : 8 < c.configArray.length := by omega
  have e1 : c.configArray[1]? = some (c.configArray.getD 1 0) := by
    rw [List.getElem?_eq_getElem b1, List.getD_eq_getElem _ _ b1]
  have e2 : c.configArray[2]? = some (c.configArray.getD 2 0) := by
    rw [List.getElem?_eq_getElem b2, List.getD_eq_getElem _ _ b2]
  have e3 : c.configArray[3]? = some (c.configArray.getD 3 0) := by
    rw [List.getElem?_eq_getElem b3, List.getD_eq_getElem _ _ b3]
  have e4 : c.configArray[4]? = some (c.configArray.getD 4 0) := by
    rw [List.getElem?_eq_getElem b4, List.getD_eq_getElem _ _ b4]
  have e5 : c.configArray[5]? = some (c.configArray.getD 5 0) := by
    rw [List.getElem?_eq_getElem b5, List.getD_eq_getElem _ _ b5]
  have e6 : c.configArray[6]? = some (c.configArray.getD 6 0) := by
    rw [List.getElem?_eq_getElem b6, List.getD_eq_getElem _ _ b6]
  have e7 : c.configArray[7]? = some (c.configArray.getD 7 0) := by
    rw [List.getElem?_eq_getElem b7, List.getD_eq_getElem _ _ b7]
  have e8 : c.configArray[8]? = some (c.configArray.getD 8 0) := by
    rw [List.getElem?_eq_getElem b8, List.getD_eq_getElem _ _ b8]
  have m3 : c.configArray.getD 3 0 ∈ c.configArray := by
    rw [List.getD_eq_getElem _ _ b3]; exact List.getElem_mem b3
  have m5 : c.configArray.getD 5 0 ∈ c.configArray := by
    rw [List.getD_eq_getElem _ _ b5]; exact List.getElem_mem b5
  have m7 : c.configArray.getD 7 0 ∈ c.configArray := by
    rw [List.getD_eq_getElem _ _ b7]; exact List.getElem_mem b7
  have m8 : c.configArray.getD 8 0 ∈ c.configArray := by
    rw [List.getD_eq_getElem _ _ b8]; exact List.getElem_mem b8
  have B1 := count2_bridge (c.configArray.getD 1 0 = 1) (c.configArray.getD 2 0 = 1)
    (hca _ m3) hl32
  have B2 := count1_bridge (c.configArray.getD 4 0 = 1) (hca _ m5) hl64
  have B3 := count1_bridge (c.configArray.getD 6 0 = 1) (hca _ m7) hlf
  have B4 := bytes_bridge (hca _ m8) hlb
  have D1 := not_congr B1
  have D2 := not_congr B2
  have D3 := not_congr B3
  have D4 : (c.configArray.getD 8 0 ≠ 0 ∧
        v.bytes.length ≠ toSizeT (c.configArray.getD 8 0)) ↔
      (c.configArray.getD 8 0 ≠ 0 ∧
        (v.bytes.length : Int) ≠ c.configArray.getD 8 0) :=
    and_congr_right fun _ => not_congr B4
  have KEY : checkVendorMixedPropValue v c =
      (if (v.int32Values.length : Int) ≠ expectedInt32Count c.configArray then
        some .INVALID_ARG
      else if (v.int64Values.length : Int) ≠ expectedInt64Count c.configArray then
        some .INVALID_ARG
      else if (v.floatValues.length : Int) ≠ expectedFloatCount c.configArray then
        some .INVALID_ARG
      else if (c.configArray.getD 8 0 ≠ 0 ∧
          (v.bytes.length : Int) ≠ c.configArray.getD 8 0) then
        some .INVALID_ARG
      else some .OK) := by
    unfold checkVendorMixedPropValue expectedInt32Count expectedInt64Count
      expectedFloatCount
    simp only [e1, e2, e3, e4, e5, e6, e7, e8]
    simp only [D1, D2, D3, D4, expectedInt32Count, expectedInt64Count,
      expectedFloatCount]
  refine ⟨?_, ?_, fun s => rfl⟩ <;>
    · rw [KEY]
      split_ifs <;> simp_all

/-- C7 witness: subscribing to a property with no registered schema is
rejected with InvalidArgument and nothing is registered. -/
theorem subscribe_continuous_inclusive_witness :
    subscribe (fun _ => none) VHAL_HEARTBEAT 1 = some (.INVALID_ARG, none) :=
  (subscribe_continuous_inclusive (fun _ => none) VHAL_HEARTBEAT 1).trans (by decide)

/-- C9 witness: a concrete failing `set` leaves the empty store empty. -/
theorem set_leaves_store_unchanged_witness :
    (set (fun _ => none) (fun _ => .OK) emptyStore unavailableStatusVal).2 =
      emptyStore :=
  (set_leaves_store_unchanged (fun _ => none) (fun _ => .OK) emptyStore
    unavailableStatusVal).1

/-- C5 witness: a value matching every configArray-derived expected count
of the 9-slot schema is accepted. -/
theorem checkVendorMixed_reject_iff_witness :
    checkVendorMixedPropValue fullMixedVal fullMixedCfg = some .OK :=
  ((checkVendorMixed_reject_iff fullMixedVal fullMixedCfg (by decide) (by decide)
      (by decide) (by decide) (by decide) (by decide)).2.1).mpr (by decide)

/-- C10 counterexample: the claim says every vendor MIXED value checked
against a configArray shorter than 9 slots hits an out-of-bounds access;
but with the 4-slot `shortMixedCfg` and a value whose int32 length 1
mismatches the expected count 0, the source returns InvalidArgument from
the first length comparison without touching any missing slot. -/
theorem checkVendorMixed_short_config_counterexample :
    shortMixedCfg.configArray.length < 9 ∧
    checkVendorMixedPropValue shortMixedVal shortMixedCfg = some .INVALID_ARG :=
  ⟨by decide, by decide⟩

/-- C10 amended: `checkVendorMixedPropValue` is well-defined for every
value exactly when the configArray has at least 9 entries: with 9 or more
slots every input yields a result, while for every configArray shorter
than 9 there exists a value (one whose payload lengths match every count
the source computes before the first missing slot) on which the check
performs an out-of-bounds access instead of returning a result. -/
theorem checkVendorMixed_oob_precondition (c : VehiclePropConfig) :
    (9 ≤ c.configArray.length →
      ∀ v, (checkVendorMixedPropValue v c).isSome = true) ∧
    (c.configArray.length < 9 →
      ∃ v, checkVendorMixedPropValue v c = none) := by
  constructor
  · intro h9 v
    have b1 : 1 < c.configArray.length := by omega
    have b2 : 2 < c.configArray.length := by omega
    have b3 : 3 < c.configArray.length := by omega
    have b4 : 4 < c.configArray.length := by omega
    have b5 : 5 < c.configArray.length := by omega
    have b6 : 6 < c.configArray.length := by omega
    have b7 : 7 < c.configArray.length := by omega
    have b8 : 8 < c.configArray.length := by omega
    unfold checkVendorMixedPropValue
    simp only [List.getElem?_eq_getElem b1, List.getElem?_eq_getElem b2,
      List.getElem?_eq_getElem b3, List.getElem?_eq_getElem b4,
      List.getElem?_eq_getElem b5, List.getElem?_eq_getElem b6,
      List.getElem?_eq_getElem b7, List.getElem?_eq_getElem b8]
    repeat' split
    all_goals simp
  · intro hlt
    refine ⟨mixedProbeValue c.configArray, ?_⟩
    rcases hx : c.configArray with
      _ | ⟨a0, _ | ⟨a1, _ | ⟨a2, _ | ⟨a3, _ | ⟨a4, _ | ⟨a5, _ | ⟨a6, _ | ⟨a7, rest⟩⟩⟩⟩⟩⟩⟩⟩
    · simp [mixedProbeValue, checkVendorMixedPropValue, mkValue, hx, List.getD]
    · simp [mixedProbeValue, checkVendorMixedPropValue, mkValue, hx, List.getD]
    · simp [mixedProbeValue, checkVendorMixedPropValue, mkValue, hx, List.getD]
    · simp [mixedProbeValue, checkVendorMixedPropValue, mkValue, hx, List.getD]
    · simp [mixedProbeValue, checkVendorMixedPropValue, mkValue, hx, List.getD]
    · simp [mixedProbeValue, checkVendorMixedPropValue, mkValue, hx, List.getD]
    · simp [mixedProbeValue, checkVendorMixedPropValue, mkValue, hx, List.getD]
    · simp [mixedProbeValue, checkVendorMixedPropValue, mkValue, hx, List.getD]
    · rw [hx] at hlt
      simp only [List.length_cons] at hlt
      obtain rfl : rest = [] := by
        cases rest with
        | nil => rfl
        | cons b t => exact absurd hlt (by simp)
      simp [mixedProbeValue, checkVendorMixedPropValue, mkValue, hx, List.getD]

/-- C10 witness: with the full 9-slot schema the check is defined on the
matching value. -/
theorem checkVendorMixed_oob_precondition_witness :
    (checkVendorMixedPropValue fullMixedVal fullMixedCfg).isSome = true :=
  (checkVendorMixed_oob_precondition fullMixedCfg).1 (by decide) fullMixedVal

end VHal
